import Mathlib

/-!
Shallow embedding of `dodo_env.py` (class `DodoEnv`): a vectorized RL
environment wrapping a rigid-body physics backend.  All machine floats are
modelled as exact rationals `ℚ`; the batched tensors of shape `(N, ...)`
become functions `ℕ → ...` (row index first), with the row count `numEnvs`
kept explicitly for the whole-tensor reductions the code performs.

The physics backend (`genesis`) is an external collaborator: everything the
code reads back from it after `scene.step()` (base pose, Euler angles from
`quat_to_xyz`, body-frame velocities from `transform_by_quat`, joint state,
foot-link heights) is bundled into a `PhysicsOut` input of `step`.  Random
draws of `torch.rand` are modelled as explicit input functions producing
values in `[0, 1)`.

Python exceptions are modelled with `Option`: `none` means the call raised.
In particular `step` returns `none` exactly when the reward loop hits a
reward name that has no `episode_sums` entry (the dict `+=` KeyError).
-/

namespace DodoEnv

/-- Timestep: `self.dt = 0.01` (dodo_env.py line 28). -/
def dt : ℚ := 1 / 100

/-- Class constant `CONTACT_HEIGHT = 0.05` (line 10). -/
def contactHeight : ℚ := 5 / 100

/-- Class constant `SWING_HEIGHT_THRESHOLD = 0.10` (line 11). -/
def swingHeightThreshold : ℚ := 1 / 10

/-- Module-level helper `gs_rand_float(lower, upper, shape, device)` (lines 6-7):
`(upper - lower) * torch.rand(...) + lower`, with the `torch.rand` draw
(a value in `[0,1)`) passed explicitly as `r`. -/
def gs_rand_float (lower upper r : ℚ) : ℚ := (upper - lower) * r + lower

/-- `torch.clip(x, -c, c)` as used on actions (line 237): clamp below then above. -/
def clipQ (c x : ℚ) : ℚ := min (max x (-c)) c

/-- `torch.relu` / `torch.clamp(x, min=0)`. -/
def reluQ (x : ℚ) : ℚ := max x 0

/-- `torch.sign` on an exact rational. -/
def qsign (x : ℚ) : ℚ := if 0 < x then 1 else if x < 0 then -1 else 0

/-- Python `int(q)` (truncation toward zero), used for
`int(resampling_time_s / dt)` (line 281). -/
def pyInt (q : ℚ) : ℤ := if 0 ≤ q then ⌊q⌋ else ⌈q⌉

/-- Environment configuration entries of `env_cfg` that the embedded code
reads, plus the joint-name-derived indices (`hip_fe_indices`, lines 87-90). -/
structure EnvCfg where
  numActions : ℕ
  episodeLengthS : ℚ
  terminationPitch : ℚ
  terminationRoll : ℚ
  clipActions : ℚ
  actionScale : ℚ
  resamplingTimeS : ℚ
  simulateActionLatency : Bool
  defaultJointAngles : ℕ → ℚ
  baseInitPos : ℕ → ℚ
  baseInitQuat : ℕ → ℚ
  hipFeLeft : ℕ
  hipFeRight : ℕ

/-- Observation configuration: `num_obs` and the `obs_scales` entries
(`ang_vel`, `lin_vel`, `dof_pos`, `dof_vel`). -/
structure ObsCfg where
  numObs : ℕ
  angVelScale : ℚ
  linVelScale : ℚ
  dofPosScale : ℚ
  dofVelScale : ℚ

/-- Command sampling ranges from `command_cfg` (lines 179-181). -/
structure CommandCfg where
  linVelXLo : ℚ
  linVelXHi : ℚ
  linVelYLo : ℚ
  linVelYHi : ℚ
  angVelLo : ℚ
  angVelHi : ℚ

/-- Everything `step` reads back from the physics backend after
`scene.step()` (lines 246-270).  `baseEuler` is the degree-valued
roll/pitch/yaw (columns 0/1/2) produced by the external
`quat_to_xyz(transform_quat_by_quat(...), rpy=True, degrees=True)`;
`footHeights` column 0/1 are the z-positions of the two `ankle_links`. -/
structure PhysicsOut where
  footHeights : ℕ → ℕ → ℚ
  basePos : ℕ → ℕ → ℚ
  baseQuat : ℕ → ℕ → ℚ
  baseEuler : ℕ → ℕ → ℚ
  baseLinVel : ℕ → ℕ → ℚ
  baseAngVel : ℕ → ℕ → ℚ
  projectedGravity : ℕ → ℕ → ℚ
  dofPos : ℕ → ℕ → ℚ
  dofVel : ℕ → ℕ → ℚ

/-- The mutable per-instance state of `DodoEnv`: every `self.*` buffer the
claims touch.  Tensors of shape `(N,)`/`(N,k)`/`(N,2,10)` are functions of
the row index (and further indices); `episodeSumKeys` records the key set
of the `self.episode_sums` dict (created at lines 119-122 for the
configured reward names only), and `hasAnkleHeights` models whether the
attribute `self.current_ankle_heights` exists yet (`hasattr`, line 188). -/
structure DodoState where
  numEnvs : ℕ
  numActions : ℕ
  numObs : ℕ
  basePos : ℕ → ℕ → ℚ
  baseQuat : ℕ → ℕ → ℚ
  baseEuler : ℕ → ℕ → ℚ
  baseLinVel : ℕ → ℕ → ℚ
  baseAngVel : ℕ → ℕ → ℚ
  projectedGravity : ℕ → ℕ → ℚ
  obsBuf : ℕ → List ℚ
  rewBuf : ℕ → ℚ
  resetBuf : ℕ → Bool
  episodeLengthBuf : ℕ → ℕ
  commands : ℕ → ℕ → ℚ
  actions : ℕ → ℕ → ℚ
  lastActions : ℕ → ℕ → ℚ
  dofPos : ℕ → ℕ → ℚ
  dofVel : ℕ → ℕ → ℚ
  lastDofVel : ℕ → ℕ → ℚ
  defaultDofPos : ℕ → ℚ
  baseInitPos : ℕ → ℚ
  baseInitQuat : ℕ → ℚ
  hipAngleHistory : ℕ → ℕ → ℕ → ℚ
  historyIdx : ℕ
  prevContact : ℕ → ℕ → ℚ
  currentAnkleHeights : ℕ → ℕ → ℚ
  hasAnkleHeights : Bool
  episodeSumKeys : List String
  episodeSums : String → ℕ → ℚ
  extrasCritic : Option (ℕ → List ℚ)
  extrasEpisode : Option (List (String × ℚ))

/-- `__init__` / `_init_buffers` (lines 12-175): all buffers zeroed,
`reset_buf` all ones, `obs_buf` a zero tensor of width `num_obs`,
`default_dof_pos` taken from `env_cfg["default_joint_angles"]`, and
`episode_sums` keys created for the configured `reward_scales` names only
(the dict is populated at lines 119-122, before the two hard-coded terms
are appended at lines 126-131).  `self.current_ankle_heights` does not
exist yet: `hasAnkleHeights := false` (its value field is a placeholder
never read while the flag is false). -/
def initState (numEnvs : ℕ) (cfg : EnvCfg) (ocfg : ObsCfg)
    (rawScales : List (String × ℚ)) : DodoState where
  numEnvs := numEnvs
  numActions := cfg.numActions
  numObs := ocfg.numObs
  basePos := fun _ _ => 0
  baseQuat := fun _ _ => 0
  baseEuler := fun _ _ => 0
  baseLinVel := fun _ _ => 0
  baseAngVel := fun _ _ => 0
  projectedGravity := fun _ _ => 0
  obsBuf := fun _ => List.replicate ocfg.numObs 0
  rewBuf := fun _ => 0
  resetBuf := fun _ => true
  episodeLengthBuf := fun _ => 0
  commands := fun _ _ => 0
  actions := fun _ _ => 0
  lastActions := fun _ _ => 0
  dofPos := fun _ _ => 0
  dofVel := fun _ _ => 0
  lastDofVel := fun _ _ => 0
  defaultDofPos := cfg.defaultJointAngles
  baseInitPos := cfg.baseInitPos
  baseInitQuat := cfg.baseInitQuat
  hipAngleHistory := fun _ _ _ => 0
  historyIdx := 0
  prevContact := fun _ _ => 0
  currentAnkleHeights := fun _ _ => 0
  hasAnkleHeights := false
  episodeSumKeys := rawScales.map Prod.fst
  episodeSums := fun _ _ => 0
  extrasCritic := none
  extrasEpisode := none

/-- Binary contact flag: `(h < self.CONTACT_HEIGHT).float()` (lines 192, 497, 516). -/
def contactFlag (h : ℚ) : ℚ := if h < contactHeight then 1 else 0

/-- `_resample_commands(env_ids)` (lines 177-181) as the new `commands`
tensor: rows in `env_ids` get columns 0/1/2 redrawn with `gs_rand_float`
over the three configured ranges; everything else is untouched.  `r c i`
is the `torch.rand` draw for channel `c` of row `i`. -/
def resampleCommandsFun (ccfg : CommandCfg) (r : ℕ → ℕ → ℚ) (ids : List ℕ)
    (old : ℕ → ℕ → ℚ) : ℕ → ℕ → ℚ :=
  fun i c =>
    if i ∈ ids then
      if c = 0 then gs_rand_float ccfg.linVelXLo ccfg.linVelXHi (r 0 i)
      else if c = 1 then gs_rand_float ccfg.linVelYLo ccfg.linVelYHi (r 1 i)
      else if c = 2 then gs_rand_float ccfg.angVelLo ccfg.angVelHi (r 2 i)
      else old i c
    else old i c

/-- `_resample_commands` as a state transformer: only `self.commands` is
written. -/
def resampleCommands (ccfg : CommandCfg) (r : ℕ → ℕ → ℚ) (ids : List ℕ)
    (s : DodoState) : DodoState :=
  { s with commands := resampleCommandsFun ccfg r ids s.commands }

/-- The per-term episode-reward averages logged into `extras["episode"]`
by `reset_idx` (lines 221-225): mean over the reset rows, divided by
`episode_length_s`. -/
def episodeAverages (cfg : EnvCfg) (s : DodoState) (ids : List ℕ) :
    List (String × ℚ) :=
  s.episodeSumKeys.map fun n =>
    (n, ((ids.map fun i => s.episodeSums n i).sum / (ids.length : ℚ)) /
      cfg.episodeLengthS)

/-- `reset_idx(env_ids)` (lines 183-228).  Empty index list: early return.
Otherwise, for the listed rows only: previous-contact cache rebuilt from
`current_ankle_heights` when that attribute exists, else from a zero
tensor (lines 188-193); joint positions to the default pose with zero
velocities; base pose to the initial pose with zero base velocities;
`last_actions`, `last_dof_vel` zeroed; episode counter zeroed and reset
flag set; episode accumulators logged then zeroed (for the keys of
`episode_sums` only); finally fresh commands drawn.  Note that
`self.hip_angle_history` is never written here. -/
def reset_idx (cfg : EnvCfg) (ccfg : CommandCfg) (s : DodoState)
    (ids : List ℕ) (r : ℕ → ℕ → ℚ) : DodoState :=
  if ids = [] then s else
    let h : ℕ → ℕ → ℚ :=
      if s.hasAnkleHeights then s.currentAnkleHeights else fun _ _ => 0
    { s with
      prevContact := fun i side =>
        if i ∈ ids then contactFlag (h i side) else s.prevContact i side
      dofPos := fun i j => if i ∈ ids then s.defaultDofPos j else s.dofPos i j
      dofVel := fun i j => if i ∈ ids then 0 else s.dofVel i j
      basePos := fun i k => if i ∈ ids then s.baseInitPos k else s.basePos i k
      baseQuat := fun i k => if i ∈ ids then s.baseInitQuat k else s.baseQuat i k
      baseLinVel := fun i k => if i ∈ ids then 0 else s.baseLinVel i k
      baseAngVel := fun i k => if i ∈ ids then 0 else s.baseAngVel i k
      lastActions := fun i j => if i ∈ ids then 0 else s.lastActions i j
      lastDofVel := fun i j => if i ∈ ids then 0 else s.lastDofVel i j
      episodeLengthBuf := fun i => if i ∈ ids then 0 else s.episodeLengthBuf i
      resetBuf := fun i => if i ∈ ids then true else s.resetBuf i
      extrasEpisode := some (episodeAverages cfg s ids)
      episodeSums := fun n i =>
        if n ∈ s.episodeSumKeys ∧ i ∈ ids then 0 else s.episodeSums n i
      commands := resampleCommandsFun ccfg r ids s.commands }

/-- `reset()` (lines 230-233): set the whole reset flag, reset every row,
and return `(self.obs_buf, None)` — the existing observation buffer, which
`reset_idx` does not recompute. -/
def reset (cfg : EnvCfg) (ccfg : CommandCfg) (s : DodoState)
    (r : ℕ → ℕ → ℚ) : DodoState × ((ℕ → List ℚ) × Option Unit) :=
  let s1 := { s with resetBuf := fun _ => true }
  let s2 := reset_idx cfg ccfg s1 (List.range s1.numEnvs) r
  (s2, (s2.obsBuf, none))

/-- `get_observations()` (lines 315-322): refresh `extras["observations"]["critic"]`
from the current buffer and return the buffer (with the extras dict). -/
def getObservations (s : DodoState) : DodoState × (ℕ → List ℚ) :=
  ({ s with extrasCritic := some s.obsBuf }, s.obsBuf)

/-- `get_privileged_observations()` (lines 324-329). -/
def getPrivilegedObservations (_s : DodoState) : Option Unit := none

/-! ## Reward functions

Each Python reward method returns one scalar per environment; the only
stateful one is `_reward_foot_contact_switch`, which rewrites
`self.prev_contact`.  An evaluator is therefore modelled as
`DodoState → (ℕ → ℚ) × (ℕ → ℕ → ℚ)`: per-row value and the (possibly
updated) previous-contact tensor.  The methods whose values involve
`exp`/`π` are real-valued; the claim-relevant one (`_reward_gait_regularity`)
is embedded separately over `ℝ` below. -/

/-- Evaluator shape: per-row reward value and the resulting `prev_contact`. -/
def RewardEval : Type :=
  DodoState → (ℕ → ℚ) × (ℕ → ℕ → ℚ)

/-- One entry of `self.reward_functions` / `self.reward_scales`: a name, a
static scale (already multiplied by `dt`), and the bound method. -/
structure RewardTerm where
  name : String
  scale : ℚ
  eval : RewardEval

/-- `_reward_foot_contact_penalty` (lines 492-507): `flight + swing_hopping`
where `flight` is 1 when no foot contacts, and `swing_hopping` is
`relu(max_height - SWING_HEIGHT_THRESHOLD)` when exactly one foot contacts. -/
def footContactPenalty (h : ℕ → ℕ → ℚ) : ℕ → ℚ :=
  fun i =>
    let c0 := contactFlag (h i 0)
    let c1 := contactFlag (h i 1)
    let flight : ℚ := if c0 + c1 = 0 then 1 else 0
    let oneContact : ℚ := if c0 + c1 = 1 then 1 else 0
    let maxSwingH := max (h i 0) (h i 1)
    flight + oneContact * reluQ (maxSwingH - swingHeightThreshold)

/-- `_reward_foot_contact_switch` (lines 510-527): value 1 exactly when both
feet's contact flags changed versus `self.prev_contact`, else 0; as a side
effect `self.prev_contact[:] = contact`. -/
def footContactSwitch (h : ℕ → ℕ → ℚ) (prev : ℕ → ℕ → ℚ) :
    (ℕ → ℚ) × (ℕ → ℕ → ℚ) :=
  (fun i =>
      (if contactFlag (h i 0) = prev i 0 then 0 else 1) *
      (if contactFlag (h i 1) = prev i 1 then 0 else 1),
   fun i side => contactFlag (h i side))

/-- The class's `ℚ`-valued reward methods, keyed by reward name, as found by
`getattr(self, f"_reward_{name}")` (line 121).  `none` for names whose
method does not exist (an `AttributeError` in `__init__`) and for the
real-valued methods (`tracking_*`, `orientation_stability`,
`gait_regularity`, `foot_orientation`, `step_height_consistency`), which
are not representable over `ℚ` and are modelled separately where a claim
needs them. -/
def methodTableQ : String → Option RewardEval :=
  fun n =>
    if n = "survive" then
      some fun s => (fun _ => 1, s.prevContact)
    else if n = "lin_vel_z" then
      some fun s => (fun i => s.baseLinVel i 2 ^ 2, s.prevContact)
    else if n = "action_rate" then
      some fun s =>
        (fun i => ∑ j ∈ Finset.range s.numActions,
          (s.lastActions i j - s.actions i j) ^ 2, s.prevContact)
    else if n = "similar_to_default" then
      some fun s =>
        (fun i => ∑ j ∈ Finset.range s.numActions,
          |s.dofPos i j - s.defaultDofPos j|, s.prevContact)
    else if n = "penalize_ankle_height" then
      some fun s =>
        (fun i => (s.currentAnkleHeights i 0 + s.currentAnkleHeights i 1) / 2,
         s.prevContact)
    else if n = "foot_contact_penalty" then
      some fun s => (footContactPenalty s.currentAnkleHeights, s.prevContact)
    else if n = "foot_contact_switch" then
      some fun s => footContactSwitch s.currentAnkleHeights s.prevContact
    else none

/-- The `__init__` registration loop (lines 119-122): each configured scale
is multiplied by `dt`, and the method is looked up by name (`none` when the
lookup raises). -/
def buildScaledTerms (table : String → Option RewardEval) :
    List (String × ℚ) → Option (List RewardTerm)
  | [] => some []
  | (n, sc) :: rest =>
    match table n with
    | none => none
    | some f => (buildScaledTerms table rest).map fun ts =>
        { name := n, scale := sc * dt, eval := f } :: ts

/-- The hard-coded term added at lines 126 and 130. -/
def penaltyTerm : RewardTerm where
  name := "foot_contact_penalty"
  scale := -1 * dt
  eval := fun s => (footContactPenalty s.currentAnkleHeights, s.prevContact)

/-- The hard-coded term added at lines 127 and 131. -/
def switchTerm : RewardTerm where
  name := "foot_contact_switch"
  scale := (1 / 2) * dt
  eval := fun s => footContactSwitch s.currentAnkleHeights s.prevContact

/-- Full `__init__` registry construction (lines 116-131): the configured
terms (scales multiplied by `dt`), then the two hard-coded contact terms
whose scales `-1.0 * dt` and `+0.5 * dt` overwrite/extend the dict.
Note `self.episode_sums` receives keys only in the first loop, so the two
appended terms have no accumulator unless their names were configured. -/
def buildRegistry (table : String → Option RewardEval)
    (rawScales : List (String × ℚ)) : Option (List RewardTerm) :=
  (buildScaledTerms table rawScales).map fun ts => ts ++ [penaltyTerm, switchTerm]

/-- One iteration of the reward loop (lines 292-295):
`r = fn() * scale; rew_buf += r; episode_sums[name] += r`.  The method runs
first (possibly rewriting `prev_contact`); the accumulator update raises
`KeyError` (`none`) when `name` is not a key of `episode_sums`. -/
def applyTermO (t : RewardTerm) (s : DodoState) : Option DodoState :=
  if t.name ∈ s.episodeSumKeys then
    some { s with
      prevContact := (t.eval s).2
      rewBuf := fun i => s.rewBuf i + t.scale * (t.eval s).1 i
      episodeSums := fun n i =>
        if n = t.name then s.episodeSums n i + t.scale * (t.eval s).1 i
        else s.episodeSums n i }
  else none

/-- The reward loop over all registered terms, in registration order. -/
def evalRewardsO : List RewardTerm → DodoState → Option DodoState
  | [], s => some s
  | t :: ts, s =>
    match applyTermO t s with
    | none => none
    | some s1 => evalRewardsO ts s1

/-- Lines 291-295: `self.rew_buf[:] = 0` and then the term loop. -/
def rewardPassO (terms : List RewardTerm) (s : DodoState) : Option DodoState :=
  evalRewardsO terms { s with rewBuf := fun _ => 0 }

/-! ## The step pipeline -/

/-- `exec_actions` (line 239): the previous actions under simulated latency,
else the freshly clipped ones. -/
def execActions (cfg : EnvCfg) (s : DodoState) (clipped : ℕ → ℕ → ℚ) :
    ℕ → ℕ → ℚ :=
  if cfg.simulateActionLatency then s.lastActions else clipped

/-- `target_pos` (line 241), handed to the backend PD controller. -/
def targetPos (cfg : EnvCfg) (s : DodoState) (clipped : ℕ → ℕ → ℚ) :
    ℕ → ℕ → ℚ :=
  fun i j => execActions cfg s clipped i j * cfg.actionScale + s.defaultDofPos j

/-- Lines 237-278 of `step`: clip actions, record foot heights from the
backend, advance the episode counters, copy back pose/velocity/joint state,
and write the current hip flexion/extension angles into slot `history_idx`
of the 10-deep rolling history (both sides), advancing the ring index. -/
def stepAdvance (cfg : EnvCfg) (s : DodoState) (acts : ℕ → ℕ → ℚ)
    (phys : PhysicsOut) : DodoState :=
  { s with
    actions := fun i j => clipQ cfg.clipActions (acts i j)
    currentAnkleHeights := phys.footHeights
    hasAnkleHeights := true
    episodeLengthBuf := fun i => s.episodeLengthBuf i + 1
    basePos := phys.basePos
    baseQuat := phys.baseQuat
    baseEuler := phys.baseEuler
    baseLinVel := phys.baseLinVel
    baseAngVel := phys.baseAngVel
    projectedGravity := phys.projectedGravity
    dofPos := phys.dofPos
    dofVel := phys.dofVel
    hipAngleHistory := fun i side k =>
      if k = s.historyIdx ∧ side < 2 then
        phys.dofPos i (if side = 0 then cfg.hipFeLeft else cfg.hipFeRight)
      else s.hipAngleHistory i side k
    historyIdx := (s.historyIdx + 1) % 10 }

/-- The resampling cadence `int(resampling_time_s / dt)` (line 281). -/
def resampleCadence (cfg : EnvCfg) : ℕ := (pyInt (cfg.resamplingTimeS / dt)).toNat

/-- Lines 281-282: rows whose (already incremented) episode counter is an
exact multiple of the cadence get fresh commands. -/
def stepResample (cfg : EnvCfg) (ccfg : CommandCfg) (r : ℕ → ℕ → ℚ)
    (s : DodoState) : DodoState :=
  resampleCommands ccfg r
    ((List.range s.numEnvs).filter
      fun i => s.episodeLengthBuf i % resampleCadence cfg = 0) s

/-- `math.ceil(episode_length_s / dt)` (line 29). -/
def maxEpisodeLength (cfg : EnvCfg) : ℤ := ⌈cfg.episodeLengthS / dt⌉

/-- Lines 284-288: the termination disjunction, written into `reset_buf`. -/
def stepDone (cfg : EnvCfg) (s : DodoState) : DodoState :=
  { s with resetBuf := fun i =>
      decide ((s.episodeLengthBuf i : ℤ) > maxEpisodeLength cfg
        ∨ |s.baseEuler i 1| > cfg.terminationPitch
        ∨ |s.baseEuler i 0| > cfg.terminationRoll) }

/-- The per-3-channel command observation scale `self.commands_scale`
(lines 156-160): `[lin_vel, lin_vel, ang_vel]`. -/
def commandScaleVec (ocfg : ObsCfg) : ℕ → ℚ :=
  fun k => if k < 2 then ocfg.linVelScale else ocfg.angVelScale

/-- Lines 298-305: one row of the observation `torch.cat`, in the source's
fixed order — scaled base angular velocity (3), projected gravity (3),
scaled commands (3), scaled joint-position offsets (A), scaled joint
velocities (A), current (clipped) actions (A). -/
def obsRow (ocfg : ObsCfg) (s : DodoState) (i : ℕ) : List ℚ :=
  (List.ofFn fun k : Fin 3 => s.baseAngVel i k * ocfg.angVelScale) ++
  (List.ofFn fun k : Fin 3 => s.projectedGravity i k) ++
  (List.ofFn fun k : Fin 3 => s.commands i k * commandScaleVec ocfg k) ++
  (List.ofFn fun k : Fin s.numActions =>
    (s.dofPos i k - s.defaultDofPos k) * ocfg.dofPosScale) ++
  (List.ofFn fun k : Fin s.numActions => s.dofVel i k * ocfg.dofVelScale) ++
  (List.ofFn fun k : Fin s.numActions => s.actions i k)

/-- Lines 298-310: assemble the observation, save
`last_actions`/`last_dof_vel`, and publish the critic observation. -/
def stepSave (ocfg : ObsCfg) (s2 : DodoState) : DodoState :=
  { s2 with
    obsBuf := fun i => obsRow ocfg s2 i
    lastActions := s2.actions
    lastDofVel := s2.dofVel
    extrasCritic := some fun i => obsRow ocfg s2 i }

/-- Line 312: `self.reset_buf.nonzero(...).flatten()` — the rows whose
reset flag is up. -/
def doneIds (s : DodoState) : List ℕ :=
  (List.range s.numEnvs).filter fun i => s.resetBuf i

/-- Lines 298-313 after the reward loop: assemble the observation, save
`last_actions`/`last_dof_vel`, publish the critic observation, and reset
the rows whose reset flag is up. -/
def stepFinal (cfg : EnvCfg) (ocfg : ObsCfg) (ccfg : CommandCfg)
    (r2 : ℕ → ℕ → ℚ) (s2 : DodoState) : DodoState :=
  reset_idx cfg ccfg (stepSave ocfg s2) (doneIds (stepSave ocfg s2)) r2

/-- `step(actions)` (lines 235-313).  `phys` is what the backend reports
after `scene.step()`; `r1` feeds the cadence resampling, `r2` the post-reset
command draw.  The result is `none` exactly when the reward loop raises
(missing `episode_sums` key); otherwise the returned tuple
`(obs_buf, rew_buf, reset_buf, extras)` consists of the corresponding
fields of the resulting state. -/
def step (cfg : EnvCfg) (ocfg : ObsCfg) (ccfg : CommandCfg)
    (terms : List RewardTerm) (s : DodoState) (acts : ℕ → ℕ → ℚ)
    (phys : PhysicsOut) (r1 r2 : ℕ → ℕ → ℚ) : Option DodoState :=
  match rewardPassO terms
      (stepDone cfg (stepResample cfg ccfg r1 (stepAdvance cfg s acts phys))) with
  | none => none
  | some s2 => some (stepFinal cfg ocfg ccfg r2 s2)

/-! ## Gait regularity (real-valued) -/

/-- The left-hip slice `self.hip_angle_history[:, 0, :]` and its
`torch.diff` along the 10 slots (line 411): 9 consecutive differences. -/
def hipChanges (s : DodoState) (i : ℕ) : ℕ → ℚ :=
  fun k => s.hipAngleHistory i 0 (k + 1) - s.hipAngleHistory i 0 k

/-- The accumulation loop of lines 413-417:
`for i in range(8): change_consistency += clamp(sign(d_i) * sign(d_{i+1}), min=0)`. -/
def changeConsistency (s : DodoState) (i : ℕ) : ℚ :=
  (List.range 8).foldl
    (fun acc k => acc + reluQ (qsign (hipChanges s i k) * qsign (hipChanges s i (k + 1))))
    0

/-- `torch.sum(self.hip_angle_history)` (line 408): the sum over the whole
`(N, 2, 10)` tensor — all rows, both sides, all slots. -/
def histTotal (s : DodoState) : ℚ :=
  ((List.range s.numEnvs).map fun i =>
    ((List.range 2).map fun side =>
      ((List.range 10).map fun k => s.hipAngleHistory i side k).sum).sum).sum

/-- Lines 408-422: the periodicity component, gated on the global history
sum being nonzero; when active it is `change_consistency / 8 * 0.5`. -/
def periodicityReward (s : DodoState) (i : ℕ) : ℚ :=
  if histTotal s ≠ 0 then changeConsistency s i / 8 * (1 / 2) else 0

/-- `_reward_gait_regularity` (lines 400-426):
`exp(-|left_hip_fe + right_hip_fe| / 0.3)` plus the periodicity component. -/
noncomputable def gaitRegularity (cfg : EnvCfg) (s : DodoState) (i : ℕ) : ℝ :=
  Real.exp (-((|s.dofPos i cfg.hipFeLeft + s.dofPos i cfg.hipFeRight| : ℚ) : ℝ) / (3 / 10))
    + (periodicityReward s i : ℝ)

/-- The spec-side direction-consistency formula, written from the claim's
words: over the 10-sample history take the 9 consecutive first differences,
for each of the 8 adjacent difference pairs add
`max(sign(d_i) * sign(d_{i+1}), 0)`, divide by 8, scale by 0.5. -/
def specPeriodicity (s : DodoState) (i : ℕ) : ℚ :=
  (((List.range 8).map fun k =>
    max (qsign (hipChanges s i k) * qsign (hipChanges s i (k + 1))) 0).sum / 8) * (1 / 2)

/-- The gait-regularity value exactly as claim C7 states it: the `exp`
phase term plus the (ungated) spec formula. -/
noncomputable def claimGaitRegularity (cfg : EnvCfg) (s : DodoState) (i : ℕ) : ℝ :=
  Real.exp (-((|s.dofPos i cfg.hipFeLeft + s.dofPos i cfg.hipFeRight| : ℚ) : ℝ) / (3 / 10))
    + (specPeriodicity s i : ℝ)

/-! ## Concrete example data (used by witnesses and counterexamples) -/

/-- A small concrete environment configuration: 2 actuated joints,
0.2 s episodes (so `max_episode_length = 20`), 20°/15° pitch/roll
termination thresholds, 0.1 s resampling cadence (10 ticks). -/
def cfgEx : EnvCfg where
  numActions := 2
  episodeLengthS := 1 / 5
  terminationPitch := 20
  terminationRoll := 15
  clipActions := 100
  actionScale := 1 / 4
  resamplingTimeS := 1 / 10
  simulateActionLatency := true
  defaultJointAngles := fun _ => 0
  baseInitPos := fun k => if k = 2 then 1 / 2 else 0
  baseInitQuat := fun k => if k = 0 then 1 else 0
  hipFeLeft := 0
  hipFeRight := 1

/-- A consistent observation configuration for `cfgEx`:
`num_obs = 9 + 3 * 2 = 15`. -/
def ocfgEx : ObsCfg where
  numObs := 15
  angVelScale := 1 / 4
  linVelScale := 2
  dofPosScale := 1
  dofVelScale := 1 / 20

/-- Concrete command sampling ranges. -/
def ccfgEx : CommandCfg where
  linVelXLo := -1
  linVelXHi := 1
  linVelYLo := -1 / 2
  linVelYHi := 1 / 2
  angVelLo := -2
  angVelHi := 2

/-- A fixed random stream: every `torch.rand` draw is `1/2`. -/
def rEx : ℕ → ℕ → ℚ := fun _ _ => 1 / 2

/-- A concrete backend report: everything zero except a 30° pitch. -/
def physEx : PhysicsOut where
  footHeights := fun _ _ => 0
  basePos := fun _ _ => 0
  baseQuat := fun _ _ => 0
  baseEuler := fun _ k => if k = 1 then 30 else 0
  baseLinVel := fun _ _ => 0
  baseAngVel := fun _ _ => 0
  projectedGravity := fun _ _ => 0
  dofPos := fun _ _ => 0
  dofVel := fun _ _ => 0

/-- A fresh one-environment state whose hip-angle history has been filled
with the constant 5 (as it would be after some simulated ticks). -/
def c2State : DodoState :=
  { initState 1 cfgEx ocfgEx [] with hipAngleHistory := fun _ _ _ => 5 }

/-- A one-environment state in which the first physics tick has already
reported both feet at height 1 (no contact). -/
def sHeightsEx : DodoState :=
  { initState 1 cfgEx ocfgEx [] with
    hasAnkleHeights := true
    currentAnkleHeights := fun _ _ => 1 }

/-- The state produced by one concrete `step` call on a freshly built
one-environment state with an empty reward registry: the 30° pitch in
`physEx` trips termination, so row 0 is reset at the end of the step. -/
def stepResultEx : DodoState :=
  (step cfgEx ocfgEx ccfgEx [] (initState 1 cfgEx ocfgEx []) (fun _ _ => 0)
    physEx rEx rEx).getD (initState 1 cfgEx ocfgEx [])

/-- An observation configuration whose `num_obs` (5) contradicts the
actual concatenated width (15) for `cfgEx`. -/
def ocfgBad : ObsCfg := { ocfgEx with numObs := 5 }

/-- One concrete `step` on a state constructed with the inconsistent
`ocfgBad`: construction does not fail, and neither does the step. -/
def stepResultBad : DodoState :=
  (step cfgEx ocfgBad ccfgEx [] (initState 1 cfgEx ocfgBad []) (fun _ _ => 0)
    physEx rEx rEx).getD (initState 1 cfgEx ocfgBad [])

/-- A reward configuration holding only `survive`, as the in-code comment
at line 125 assumes (`reward_cfg` without the two contact terms). -/
def c4Raws : List (String × ℚ) := [("survive", 1)]

/-- The registry `__init__` builds from `c4Raws`: the scaled `survive`
term followed by the two hard-coded contact terms. -/
def c4Registry : List RewardTerm := (buildRegistry methodTableQ c4Raws).getD []

/-- The state `__init__` builds from `c4Raws`: `episode_sums` has the key
`survive` only. -/
def c4Start : DodoState := initState 1 cfgEx ocfgEx c4Raws

/-- A one-environment state whose left-hip history ramps 1..10 (a perfectly
direction-consistent gait trace) while one right-side slot holds -55, so
the whole history tensor sums to exactly zero. -/
def sC7 : DodoState :=
  { initState 1 cfgEx ocfgEx [] with
    hipAngleHistory := fun i side k =>
      if i = 0 ∧ side = 0 ∧ k < 10 then (k : ℚ) + 1
      else if i = 0 ∧ side = 1 ∧ k = 0 then -55 else 0 }

/-! ## Helper lemmas -/

/-- A `gs_rand_float` draw from a rand value in `[0, 1)` lands inside the
closed range `[lower, upper]` whenever the range is nonempty. -/
theorem gs_rand_float_mem (lo hi r : ℚ) (hle : lo ≤ hi) (h0 : 0 ≤ r)
    (h1 : r < 1) : lo ≤ gs_rand_float lo hi r ∧ gs_rand_float lo hi r ≤ hi := by
  unfold gs_rand_float
  constructor
  · nlinarith [mul_nonneg (sub_nonneg.2 hle) h0]
  · nlinarith [mul_nonneg (sub_nonneg.2 hle) (sub_nonneg.2 h1.le)]

/-- `reset_idx` never writes the observation buffer. -/
theorem reset_idx_obsBuf (cfg : EnvCfg) (ccfg : CommandCfg) (s : DodoState)
    (ids : List ℕ) (r : ℕ → ℕ → ℚ) :
    (reset_idx cfg ccfg s ids r).obsBuf = s.obsBuf := by
  unfold reset_idx
  split <;> rfl

/-- `reset_idx` never writes the hip-angle history. -/
theorem reset_idx_hipAngleHistory (cfg : EnvCfg) (ccfg : CommandCfg)
    (s : DodoState) (ids : List ℕ) (r : ℕ → ℕ → ℚ) :
    (reset_idx cfg ccfg s ids r).hipAngleHistory = s.hipAngleHistory := by
  unfold reset_idx
  split <;> rfl

/-- The reward loop only ever writes `prev_contact`, `rew_buf` and the
episode accumulators: the resulting state is the input state with just
those three fields replaced. -/
theorem evalRewardsO_eta : ∀ (terms : List RewardTerm) (s s2 : DodoState),
    evalRewardsO terms s = some s2 →
    s2 = { s with prevContact := s2.prevContact, rewBuf := s2.rewBuf,
                  episodeSums := s2.episodeSums }
  | [], s, s2, h => by
    simp only [evalRewardsO, Option.some.injEq] at h
    subst h
    rfl
  | t :: ts, s, s2, h => by
    simp only [evalRewardsO] at h
    cases ha : applyTermO t s with
    | none => rw [ha] at h; cases h
    | some s1 =>
      rw [ha] at h
      have h1 : s1 = { s with
          prevContact := s1.prevContact
          rewBuf := s1.rewBuf
          episodeSums := s1.episodeSums } := by
        unfold applyTermO at ha
        split at ha
        · cases ha; rfl
        · cases ha
      have h2 := evalRewardsO_eta ts s1 s2 h
      rw [h1] at h2
      exact h2

/-- The reset performed at the end of `step` (on the rows whose reset flag
is already up) leaves the reset flag pointwise unchanged. -/
theorem reset_idx_doneIds_resetBuf (cfg : EnvCfg) (ccfg : CommandCfg)
    (s : DodoState) (r : ℕ → ℕ → ℚ) (i : ℕ) :
    (reset_idx cfg ccfg s (doneIds s) r).resetBuf i = s.resetBuf i := by
  unfold reset_idx doneIds
  split
  · rfl
  · by_cases hm : i ∈ (List.range s.numEnvs).filter fun j => s.resetBuf j
    · have hb : s.resetBuf i = true := by
        simpa using (List.mem_filter.1 hm).2
      simp [hm, hb]
    · simp [hm]

/-! ## Claim C5 -/

/-- C5: per row, `_reward_foot_contact_switch` returns 1 exactly when both
feet's contact flags (`height < CONTACT_HEIGHT`) differ from the cached
previous-tick flags simultaneously, and 0 otherwise; the concrete contact
transitions (0,0)→(1,1) and (0,0)→(1,0) yield 1 and 0 respectively; and
evaluation updates the cached previous-contact flags to the current ones. -/
theorem C5_foot_contact_switch : ∀ (h prev : ℕ → ℕ → ℚ) (i side : ℕ),
    ((footContactSwitch h prev).1 i = 1 ↔
      (contactFlag (h i 0) ≠ prev i 0 ∧ contactFlag (h i 1) ≠ prev i 1))
  ∧ ((footContactSwitch h prev).1 i = 0 ↔
      ¬(contactFlag (h i 0) ≠ prev i 0 ∧ contactFlag (h i 1) ≠ prev i 1))
  ∧ (footContactSwitch h prev).2 i side = contactFlag (h i side)
  ∧ (footContactSwitch (fun _ _ => 0) (fun _ _ => 0)).1 0 = 1
  ∧ (footContactSwitch (fun _ side => if side = 0 then 0 else 1)
      (fun _ _ => 0)).1 0 = 0 := by
  intro h prev i side
  refine ⟨?_, ?_, rfl, by norm_num [footContactSwitch, contactFlag, contactHeight],
    by norm_num [footContactSwitch, contactFlag, contactHeight]⟩
  · by_cases hA : contactFlag (h i 0) = prev i 0 <;>
      by_cases hB : contactFlag (h i 1) = prev i 1 <;>
        simp [footContactSwitch, hA, hB]
  · by_cases hA : contactFlag (h i 0) = prev i 0 <;>
      by_cases hB : contactFlag (h i 1) = prev i 1 <;>
        simp [footContactSwitch, hA, hB]

/-! ## Claim C6 -/

/-- C6: per row, `_reward_foot_contact_penalty` returns 1 when neither foot
is in contact (both heights at least `CONTACT_HEIGHT`), 0 when both feet
are in contact, `relu(max_height - SWING_HEIGHT_THRESHOLD)` when exactly
one foot is in contact, and in particular exactly `d` when one foot is in
contact and the swing foot sits at `SWING_HEIGHT_THRESHOLD + d` with
`d ≥ 0`. -/
theorem C6_foot_contact_penalty : ∀ (h : ℕ → ℕ → ℚ) (i : ℕ),
    ((contactHeight ≤ h i 0 ∧ contactHeight ≤ h i 1) → footContactPenalty h i = 1)
  ∧ ((h i 0 < contactHeight ∧ h i 1 < contactHeight) → footContactPenalty h i = 0)
  ∧ ((h i 0 < contactHeight ∧ contactHeight ≤ h i 1) →
      footContactPenalty h i = reluQ (max (h i 0) (h i 1) - swingHeightThreshold))
  ∧ ((contactHeight ≤ h i 0 ∧ h i 1 < contactHeight) →
      footContactPenalty h i = reluQ (max (h i 0) (h i 1) - swingHeightThreshold))
  ∧ (∀ d : ℚ, 0 ≤ d → h i 0 < contactHeight →
      h i 1 = swingHeightThreshold + d → footContactPenalty h i = d) := by
  intro h i
  refine ⟨?_, ?_, ?_, ?_, ?_⟩
  · rintro ⟨h0, h1⟩
    simp [footContactPenalty, contactFlag, not_lt.2 h0, not_lt.2 h1]
  · rintro ⟨h0, h1⟩
    norm_num [footContactPenalty, contactFlag, h0, h1]
  · rintro ⟨h0, h1⟩
    norm_num [footContactPenalty, contactFlag, h0, not_lt.2 h1]
  · rintro ⟨h0, h1⟩
    norm_num [footContactPenalty, contactFlag, not_lt.2 h0, h1]
  · intro d hd h0 h1
    have hn1 : ¬(h i 1 < contactHeight) := by
      rw [h1]
      unfold contactHeight swingHeightThreshold
      intro hcon
      linarith
    have hmax : max (h i 0) (h i 1) = swingHeightThreshold + d := by
      rw [h1]
      refine max_eq_right ?_
      unfold contactHeight at h0
      unfold swingHeightThreshold
      linarith
    norm_num [footContactPenalty, contactFlag, h0, hn1, hmax, reluQ]
    exact hd

/-- C6 witness: with one foot at height 0 (contact) and the swing foot at
`0.10 + 0.02`, the penalty is exactly `0.02`; with both feet at height 1
(no contact), the penalty is exactly 1. -/
theorem C6_witness :
    footContactPenalty (fun _ side => if side = 0 then 0 else 1 / 10 + 1 / 50) 0 = 1 / 50
  ∧ footContactPenalty (fun _ _ => 1) 0 = 1 := by
  constructor
  · exact (C6_foot_contact_penalty (fun _ side => if side = 0 then 0 else 1 / 10 + 1 / 50) 0).2.2.2.2
      (1 / 50) (by norm_num) (by norm_num [contactHeight])
      (by norm_num [swingHeightThreshold])
  · exact (C6_foot_contact_penalty (fun _ _ => 1) 0).1
      ⟨by norm_num [contactHeight], by norm_num [contactHeight]⟩

/-! ## Claim C10 -/

/-- C10: when a row is reset before any physics tick has produced
foot-height data (`current_ankle_heights` does not exist yet), its
previous-contact cache is set to both-feet-in-contact (flag 1 on both
sides), because the substituted zero heights lie below `CONTACT_HEIGHT`;
on any later reset the cache is rebuilt from the row's current foot
heights.  `reset_idx` is total here: the missing-data case never raises. -/
theorem C10_reset_prev_contact : ∀ (cfg : EnvCfg) (ccfg : CommandCfg)
    (s : DodoState) (ids : List ℕ) (r : ℕ → ℕ → ℚ) (i side : ℕ),
    i ∈ ids →
    (s.hasAnkleHeights = false →
      (reset_idx cfg ccfg s ids r).prevContact i side = 1)
  ∧ (s.hasAnkleHeights = true →
      (reset_idx cfg ccfg s ids r).prevContact i side =
        if s.currentAnkleHeights i side < contactHeight then 1 else 0) := by
  intro cfg ccfg s ids r i side hi
  have hne : ids ≠ [] := List.ne_nil_of_mem hi
  constructor
  · intro hA
    unfold reset_idx
    rw [if_neg hne]
    norm_num [hi, hA, contactFlag, contactHeight]
  · intro hA
    unfold reset_idx
    rw [if_neg hne]
    simp [hi, hA, contactFlag]

/-- C10 witness: resetting row 0 of a freshly built state (no tick yet)
puts both previous-contact flags to 1; resetting a state whose feet are at
height 1 rebuilds the flag from that height. -/
theorem C10_witness :
    (reset_idx cfgEx ccfgEx (initState 1 cfgEx ocfgEx []) [0] rEx).prevContact 0 0 = 1
  ∧ (reset_idx cfgEx ccfgEx sHeightsEx [0] rEx).prevContact 0 0 =
      if sHeightsEx.currentAnkleHeights 0 0 < contactHeight then 1 else 0 := by
  constructor
  · exact (C10_reset_prev_contact cfgEx ccfgEx (initState 1 cfgEx ocfgEx [])
      [0] rEx 0 0 (by decide)).1 rfl
  · exact (C10_reset_prev_contact cfgEx ccfgEx sHeightsEx
      [0] rEx 0 0 (by decide)).2 rfl

/-! ## Claim C8 -/

/-- C8: `_resample_commands` overwrites exactly the three command channels
of the listed rows with `gs_rand_float` draws over the configured ranges
(landing inside `[lower, upper]` for rand values in `[0,1)` and nonempty
ranges); every other row's commands, every channel beyond 2, and every
other state buffer are unchanged, and the empty index list is a safe
no-op. -/
theorem C8_resample_commands : ∀ (ccfg : CommandCfg) (r : ℕ → ℕ → ℚ)
    (ids : List ℕ) (s : DodoState) (i c : ℕ),
    (i ∉ ids → (resampleCommands ccfg r ids s).commands i c = s.commands i c)
  ∧ ((resampleCommands ccfg r [] s).commands i c = s.commands i c)
  ∧ (3 ≤ c → (resampleCommands ccfg r ids s).commands i c = s.commands i c)
  ∧ (resampleCommands ccfg r ids s).basePos = s.basePos
  ∧ (resampleCommands ccfg r ids s).baseQuat = s.baseQuat
  ∧ (resampleCommands ccfg r ids s).baseLinVel = s.baseLinVel
  ∧ (resampleCommands ccfg r ids s).baseAngVel = s.baseAngVel
  ∧ (resampleCommands ccfg r ids s).dofPos = s.dofPos
  ∧ (resampleCommands ccfg r ids s).dofVel = s.dofVel
  ∧ (resampleCommands ccfg r ids s).episodeLengthBuf = s.episodeLengthBuf
  ∧ (resampleCommands ccfg r ids s).resetBuf = s.resetBuf
  ∧ (resampleCommands ccfg r ids s).prevContact = s.prevContact
  ∧ (resampleCommands ccfg r ids s).hipAngleHistory = s.hipAngleHistory
  ∧ (resampleCommands ccfg r ids s).obsBuf = s.obsBuf
  ∧ (resampleCommands ccfg r ids s).rewBuf = s.rewBuf
  ∧ (resampleCommands ccfg r ids s).lastActions = s.lastActions
  ∧ (resampleCommands ccfg r ids s).episodeSums = s.episodeSums
  ∧ (i ∈ ids →
      (resampleCommands ccfg r ids s).commands i 0 =
        gs_rand_float ccfg.linVelXLo ccfg.linVelXHi (r 0 i)
    ∧ (resampleCommands ccfg r ids s).commands i 1 =
        gs_rand_float ccfg.linVelYLo ccfg.linVelYHi (r 1 i)
    ∧ (resampleCommands ccfg r ids s).commands i 2 =
        gs_rand_float ccfg.angVelLo ccfg.angVelHi (r 2 i))
  ∧ (i ∈ ids → 0 ≤ r 0 i → r 0 i < 1 → ccfg.linVelXLo ≤ ccfg.linVelXHi →
      ccfg.linVelXLo ≤ (resampleCommands ccfg r ids s).commands i 0
    ∧ (resampleCommands ccfg r ids s).commands i 0 ≤ ccfg.linVelXHi)
  ∧ (i ∈ ids → 0 ≤ r 1 i → r 1 i < 1 → ccfg.linVelYLo ≤ ccfg.linVelYHi →
      ccfg.linVelYLo ≤ (resampleCommands ccfg r ids s).commands i 1
    ∧ (resampleCommands ccfg r ids s).commands i 1 ≤ ccfg.linVelYHi)
  ∧ (i ∈ ids → 0 ≤ r 2 i → r 2 i < 1 → ccfg.angVelLo ≤ ccfg.angVelHi →
      ccfg.angVelLo ≤ (resampleCommands ccfg r ids s).commands i 2
    ∧ (resampleCommands ccfg r ids s).commands i 2 ≤ ccfg.angVelHi) := by
  intro ccfg r ids s i c
  refine ⟨?_, ?_, ?_, rfl, rfl, rfl, rfl, rfl, rfl, rfl, rfl, rfl, rfl, rfl,
    rfl, rfl, rfl, ?_, ?_, ?_, ?_⟩
  · intro hni
    simp [resampleCommands, resampleCommandsFun, hni]
  · simp [resampleCommands, resampleCommandsFun]
  · intro h3
    by_cases hmem : i ∈ ids
    · have hc0 : c ≠ 0 := by omega
      have hc1 : c ≠ 1 := by omega
      have hc2 : c ≠ 2 := by omega
      simp [resampleCommands, resampleCommandsFun, hmem, hc0, hc1, hc2]
    · simp [resampleCommands, resampleCommandsFun, hmem]
  · intro hmem
    refine ⟨?_, ?_, ?_⟩ <;> simp [resampleCommands, resampleCommandsFun, hmem]
  · intro hmem h0 h1 hle
    have hv : (resampleCommands ccfg r ids s).commands i 0 =
        gs_rand_float ccfg.linVelXLo ccfg.linVelXHi (r 0 i) := by
      simp [resampleCommands, resampleCommandsFun, hmem]
    rw [hv]
    exact gs_rand_float_mem _ _ _ hle h0 h1
  · intro hmem h0 h1 hle
    have hv : (resampleCommands ccfg r ids s).commands i 1 =
        gs_rand_float ccfg.linVelYLo ccfg.linVelYHi (r 1 i) := by
      simp [resampleCommands, resampleCommandsFun, hmem]
    rw [hv]
    exact gs_rand_float_mem _ _ _ hle h0 h1
  · intro hmem h0 h1 hle
    have hv : (resampleCommands ccfg r ids s).commands i 2 =
        gs_rand_float ccfg.angVelLo ccfg.angVelHi (r 2 i) := by
      simp [resampleCommands, resampleCommandsFun, hmem]
    rw [hv]
    exact gs_rand_float_mem _ _ _ hle h0 h1

/-- C8 witness: resampling row 0 of a two-environment state keeps row 1's
commands bit-identical and lands row 0's first channel inside the
configured range. -/
theorem C8_witness :
    (resampleCommands ccfgEx rEx [0] (initState 2 cfgEx ocfgEx [])).commands 1 0 =
      (initState 2 cfgEx ocfgEx []).commands 1 0
  ∧ ccfgEx.linVelXLo ≤
      (resampleCommands ccfgEx rEx [0] (initState 2 cfgEx ocfgEx [])).commands 0 0
  ∧ (resampleCommands ccfgEx rEx [0] (initState 2 cfgEx ocfgEx [])).commands 0 0 ≤
      ccfgEx.linVelXHi := by
  refine ⟨?_, ?_, ?_⟩
  · exact (C8_resample_commands ccfgEx rEx [0] (initState 2 cfgEx ocfgEx []) 1 0).1
      (by decide)
  · exact ((C8_resample_commands ccfgEx rEx [0] (initState 2 cfgEx ocfgEx [])
      0 0).2.2.2.2.2.2.2.2.2.2.2.2.2.2.2.2.2.2.1 (by decide) (by norm_num [rEx])
      (by norm_num [rEx]) (by norm_num [ccfgEx])).1
  · exact ((C8_resample_commands ccfgEx rEx [0] (initState 2 cfgEx ocfgEx [])
      0 0).2.2.2.2.2.2.2.2.2.2.2.2.2.2.2.2.2.2.1 (by decide) (by norm_num [rEx])
      (by norm_num [rEx]) (by norm_num [ccfgEx])).2

/-! ## Claim C2 -/

/-- C2 counterexample: the claim says the per-row reset rewrites the
hip-angle rolling history together with the other buffers, but `reset_idx`
never touches `self.hip_angle_history`.  Resetting row 0 of a state whose
history holds the value 5 leaves that (nonzero) value bit-identical in
place instead of restoring the all-zero initial history. -/
theorem C2_counterexample :
    (reset_idx cfgEx ccfgEx c2State [0] rEx).hipAngleHistory 0 0 0 = 5
  ∧ c2State.hipAngleHistory 0 0 0 = 5
  ∧ (5 : ℚ) ≠ 0 := by
  refine ⟨rfl, rfl, by norm_num⟩

/-- C2 amended: when termination fires, the per-row reset rewrites
together, for the listed rows only: base pose to the initial pose, base
and joint velocities to zero, joint positions to the default pose, the
previous-contact cache (from current foot heights, zeros before the first
tick), the last-action buffer, and the episode counter to 0 with the reset
flag set; then a fresh command is drawn within the configured ranges.  The
hip-angle rolling history is NOT rewritten: it stays bit-identical.  Rows
outside the listed set are untouched. -/
theorem C2_reset_row (cfg : EnvCfg) (ccfg : CommandCfg) (s : DodoState)
    (ids : List ℕ) (r : ℕ → ℕ → ℚ) (i j k side : ℕ)
    (hi : i ∈ ids) (hj : j ∉ ids)
    (h00 : 0 ≤ r 0 i) (h01 : r 0 i < 1)
    (h10 : 0 ≤ r 1 i) (h11 : r 1 i < 1)
    (h20 : 0 ≤ r 2 i) (h21 : r 2 i < 1)
    (hx : ccfg.linVelXLo ≤ ccfg.linVelXHi)
    (hy : ccfg.linVelYLo ≤ ccfg.linVelYHi)
    (ha : ccfg.angVelLo ≤ ccfg.angVelHi) :
    ((reset_idx cfg ccfg s ids r).basePos i k = s.baseInitPos k)
  ∧ ((reset_idx cfg ccfg s ids r).baseQuat i k = s.baseInitQuat k)
  ∧ ((reset_idx cfg ccfg s ids r).baseLinVel i k = 0)
  ∧ ((reset_idx cfg ccfg s ids r).baseAngVel i k = 0)
  ∧ ((reset_idx cfg ccfg s ids r).dofPos i k = s.defaultDofPos k)
  ∧ ((reset_idx cfg ccfg s ids r).dofVel i k = 0)
  ∧ ((reset_idx cfg ccfg s ids r).lastActions i k = 0)
  ∧ ((reset_idx cfg ccfg s ids r).lastDofVel i k = 0)
  ∧ ((reset_idx cfg ccfg s ids r).episodeLengthBuf i = 0)
  ∧ ((reset_idx cfg ccfg s ids r).resetBuf i = true)
  ∧ ((reset_idx cfg ccfg s ids r).prevContact i side =
      contactFlag ((if s.hasAnkleHeights then s.currentAnkleHeights
        else fun _ _ => 0) i side))
  ∧ ((reset_idx cfg ccfg s ids r).hipAngleHistory i side k =
      s.hipAngleHistory i side k)
  ∧ (ccfg.linVelXLo ≤ (reset_idx cfg ccfg s ids r).commands i 0
      ∧ (reset_idx cfg ccfg s ids r).commands i 0 ≤ ccfg.linVelXHi)
  ∧ (ccfg.linVelYLo ≤ (reset_idx cfg ccfg s ids r).commands i 1
      ∧ (reset_idx cfg ccfg s ids r).commands i 1 ≤ ccfg.linVelYHi)
  ∧ (ccfg.angVelLo ≤ (reset_idx cfg ccfg s ids r).commands i 2
      ∧ (reset_idx cfg ccfg s ids r).commands i 2 ≤ ccfg.angVelHi)
  ∧ ((reset_idx cfg ccfg s ids r).basePos j k = s.basePos j k)
  ∧ ((reset_idx cfg ccfg s ids r).dofPos j k = s.dofPos j k)
  ∧ ((reset_idx cfg ccfg s ids r).commands j k = s.commands j k)
  ∧ ((reset_idx cfg ccfg s ids r).episodeLengthBuf j = s.episodeLengthBuf j)
  ∧ ((reset_idx cfg ccfg s ids r).prevContact j side = s.prevContact j side)
  ∧ ((reset_idx cfg ccfg s ids r).lastActions j k = s.lastActions j k) := by
  have hne : ids ≠ [] := List.ne_nil_of_mem hi
  unfold reset_idx
  rw [if_neg hne]
  refine ⟨by simp [hi], by simp [hi], by simp [hi], by simp [hi], by simp [hi],
    by simp [hi], by simp [hi], by simp [hi], by simp [hi], by simp [hi],
    by simp [hi], rfl, ?_, ?_, ?_,
    by simp [hj], by simp [hj], by simp [resampleCommandsFun, hj],
    by simp [hj], by simp [hj], by simp [hj]⟩
  · have hv : resampleCommandsFun ccfg r ids s.commands i 0 =
        gs_rand_float ccfg.linVelXLo ccfg.linVelXHi (r 0 i) := by
      simp [resampleCommandsFun, hi]
    simp only [hv]
    exact gs_rand_float_mem _ _ _ hx h00 h01
  · have hv : resampleCommandsFun ccfg r ids s.commands i 1 =
        gs_rand_float ccfg.linVelYLo ccfg.linVelYHi (r 1 i) := by
      simp [resampleCommandsFun, hi]
    simp only [hv]
    exact gs_rand_float_mem _ _ _ hy h10 h11
  · have hv : resampleCommandsFun ccfg r ids s.commands i 2 =
        gs_rand_float ccfg.angVelLo ccfg.angVelHi (r 2 i) := by
      simp [resampleCommandsFun, hi]
    simp only [hv]
    exact gs_rand_float_mem _ _ _ ha h20 h21

/-- C2 witness: resetting row 0 (and not row 1) of a concrete
two-environment reach of state shows the amended behavior on explicit
values. -/
theorem C2_witness :
    ((reset_idx cfgEx ccfgEx c2State [0] rEx).episodeLengthBuf 0 = 0)
  ∧ ((reset_idx cfgEx ccfgEx c2State [0] rEx).dofPos 0 0 = c2State.defaultDofPos 0)
  ∧ ((reset_idx cfgEx ccfgEx c2State [0] rEx).hipAngleHistory 0 0 0 =
      c2State.hipAngleHistory 0 0 0)
  ∧ (ccfgEx.linVelXLo ≤ (reset_idx cfgEx ccfgEx c2State [0] rEx).commands 0 0
      ∧ (reset_idx cfgEx ccfgEx c2State [0] rEx).commands 0 0 ≤ ccfgEx.linVelXHi)
  ∧ ((reset_idx cfgEx ccfgEx c2State [0] rEx).commands 1 0 = c2State.commands 1 0) := by
  have h := C2_reset_row cfgEx ccfgEx c2State [0] rEx 0 1 0 0
    (by decide) (by decide)
    (by norm_num [rEx]) (by norm_num [rEx]) (by norm_num [rEx])
    (by norm_num [rEx]) (by norm_num [rEx]) (by norm_num [rEx])
    (by norm_num [ccfgEx]) (by norm_num [ccfgEx]) (by norm_num [ccfgEx])
  obtain ⟨a1, a2, a3, a4, a5, a6, a7, a8, a9, a10, a11, a12, a13, a14, a15,
    b1, b2, b3, b4, b5, b6⟩ := h
  exact ⟨a9, a5, a12, a13, b3⟩

/-! ## Claim C9 -/

/-- C9: `reset()` returns the existing observation buffer (the one
assembled during the most recent `step`, or the all-zero construction
buffer) without recomputing it, paired with `None`; and
`get_observations()` returns the same buffer together with the extras
dict whose critic entry it refreshes. -/
theorem C9_stale_observation_buffers : ∀ (cfg : EnvCfg) (ccfg : CommandCfg)
    (ocfg : ObsCfg) (n : ℕ) (raws : List (String × ℚ)) (s : DodoState)
    (r : ℕ → ℕ → ℚ) (i : ℕ),
    (reset cfg ccfg s r).2.1 = s.obsBuf
  ∧ (reset cfg ccfg s r).2.2 = none
  ∧ (initState n cfg ocfg raws).obsBuf i = List.replicate ocfg.numObs 0
  ∧ (getObservations s).2 = s.obsBuf
  ∧ (getObservations s).1.extrasCritic = some s.obsBuf := by
  intro cfg ccfg ocfg n raws s r i
  refine ⟨?_, rfl, rfl, rfl, rfl⟩
  show (reset_idx cfg ccfg { s with resetBuf := fun _ => true }
    (List.range s.numEnvs) r).obsBuf = s.obsBuf
  rw [reset_idx_obsBuf]

/-! ## Claim C7 -/

/-- The accumulation loop of `_reward_gait_regularity` computes exactly the
sum over the 8 adjacent pairs of consecutive hip-angle differences. -/
theorem changeConsistency_eq (s : DodoState) (i : ℕ) :
    changeConsistency s i = ((List.range 8).map fun k =>
      max (qsign (hipChanges s i k) * qsign (hipChanges s i (k + 1))) 0).sum := by
  have hr : List.range 8 = [0, 1, 2, 3, 4, 5, 6, 7] := by decide
  rw [changeConsistency, hr]
  simp only [List.foldl, List.map, List.sum_cons, List.sum_nil, reluQ]
  ring

/-- C7 amended: the gait-regularity term is
`exp(-|left_hip_fe + right_hip_fe| / 0.3)` plus a periodicity component
that equals the claimed 8-pair direction-consistency formula only under
the code's gate: the sum of the WHOLE hip-angle history tensor (all rows,
both sides) must be nonzero, otherwise the component is 0 for every row.
For a row whose own history is still all-zero the component contributes
exactly 0 in either case, without raising. -/
theorem C7_gait_regularity (cfg : EnvCfg) (s : DodoState) (i : ℕ) :
    (gaitRegularity cfg s i =
      Real.exp (-((|s.dofPos i cfg.hipFeLeft + s.dofPos i cfg.hipFeRight| : ℚ) : ℝ) / (3 / 10))
        + (if histTotal s = 0 then 0 else (specPeriodicity s i : ℝ)))
  ∧ ((∀ k, k < 10 → s.hipAngleHistory i 0 k = 0) → periodicityReward s i = 0) := by
  constructor
  · rw [gaitRegularity]
    congr 1
    rw [periodicityReward]
    by_cases hz : histTotal s = 0
    · simp [hz]
    · rw [if_pos hz, if_neg hz, specPeriodicity, changeConsistency_eq]
  · intro hz
    have hc : ∀ k, k < 9 → hipChanges s i k = 0 := by
      intro k hk
      unfold hipChanges
      rw [hz k (by omega), hz (k + 1) (by omega)]
      ring
    rw [periodicityReward]
    by_cases ht : histTotal s = 0
    · simp [ht]
    · rw [if_pos ht, changeConsistency_eq]
      have hzs : ((List.range 8).map fun k =>
          max (qsign (hipChanges s i k) * qsign (hipChanges s i (k + 1))) 0).sum = 0 := by
        apply List.sum_eq_zero
        intro x hx
        obtain ⟨k, hk, rfl⟩ := List.mem_map.1 hx
        have hk8 : k < 8 := List.mem_range.1 hk
        rw [hc k (by omega), hc (k + 1) (by omega)]
        simp [qsign]
      rw [hzs]
      norm_num

/-- C7 witness: for a freshly built state (history all zero) the
periodicity component of row 0 is exactly 0 and nothing raises. -/
theorem C7_witness : periodicityReward (initState 1 cfgEx ocfgEx []) 0 = 0 :=
  (C7_gait_regularity cfgEx (initState 1 cfgEx ocfgEx []) 0).2 (fun _ _ => rfl)

/-- C7 counterexample: the claim's ungated formula disagrees with the code
when the whole history tensor cancels to a zero sum.  In `sC7` the left-hip
trace 1..10 is perfectly direction-consistent (spec formula gives 0.5) but
`torch.sum(history) == 0`, so the code takes the zero branch: the code
returns 1 while the claimed value is 1.5. -/
theorem C7_counterexample :
    gaitRegularity cfgEx sC7 0 = 1
  ∧ claimGaitRegularity cfgEx sC7 0 = 3 / 2
  ∧ gaitRegularity cfgEx sC7 0 ≠ claimGaitRegularity cfgEx sC7 0 := by
  have hh : histTotal sC7 = 0 := by
    norm_num [histTotal, sC7, List.range_succ,
      (show (initState 1 cfgEx ocfgEx []).numEnvs = 1 from rfl)]
  have hsp : specPeriodicity sC7 0 = 1 / 2 := by
    norm_num [specPeriodicity, sC7, hipChanges, qsign, List.range_succ]
  have hphase : (|sC7.dofPos 0 cfgEx.hipFeLeft + sC7.dofPos 0 cfgEx.hipFeRight| : ℚ) = 0 := by
    show |(0 : ℚ) + 0| = 0
    norm_num
  have h1 : gaitRegularity cfgEx sC7 0 = 1 := by
    rw [gaitRegularity, periodicityReward, if_neg (by simp [hh]), hphase]
    norm_num [Real.exp_zero]
  have h2 : claimGaitRegularity cfgEx sC7 0 = 3 / 2 := by
    rw [claimGaitRegularity, hsp, hphase]
    rw [Rat.cast_zero]
    norm_num [Real.exp_zero]
  refine ⟨h1, h2, by rw [h1, h2]; norm_num⟩

/-! ## Claim C1 -/

/-- C1: whenever `step` returns, row `i`'s returned done flag is true iff
the (just incremented) episode counter exceeds
`max_episode_length = ceil(episode_length_s / dt)`, or the absolute pitch
(degrees) exceeds the configured pitch threshold, or the absolute roll
exceeds the configured roll threshold; no other condition marks the row
done. -/
theorem C1_termination (cfg : EnvCfg) (ocfg : ObsCfg) (ccfg : CommandCfg)
    (terms : List RewardTerm) (s : DodoState) (acts : ℕ → ℕ → ℚ)
    (phys : PhysicsOut) (r1 r2 : ℕ → ℕ → ℚ) (s2 : DodoState) (i : ℕ)
    (h : step cfg ocfg ccfg terms s acts phys r1 r2 = some s2) :
    s2.resetBuf i = true ↔
      ((s.episodeLengthBuf i : ℤ) + 1 > ⌈cfg.episodeLengthS / dt⌉
        ∨ |phys.baseEuler i 1| > cfg.terminationPitch
        ∨ |phys.baseEuler i 0| > cfg.terminationRoll) := by
  unfold step at h
  cases hr : rewardPassO terms
      (stepDone cfg (stepResample cfg ccfg r1 (stepAdvance cfg s acts phys))) with
  | none => rw [hr] at h; cases h
  | some sr =>
    rw [hr] at h
    simp only [Option.some.injEq] at h
    subst h
    rw [show (stepFinal cfg ocfg ccfg r2 sr).resetBuf i
        = (stepSave ocfg sr).resetBuf i from
      reset_idx_doneIds_resetBuf cfg ccfg (stepSave ocfg sr) r2 i]
    have heta := evalRewardsO_eta terms _ sr hr
    have hrb : (stepSave ocfg sr).resetBuf i
        = (stepDone cfg (stepResample cfg ccfg r1
            (stepAdvance cfg s acts phys))).resetBuf i := by
      rw [show (stepSave ocfg sr).resetBuf = sr.resetBuf from rfl, heta]
    rw [hrb]
    simp only [stepDone, decide_eq_true_eq]
    show ((s.episodeLengthBuf i + 1 : ℕ) : ℤ) > maxEpisodeLength cfg ∨ _ ↔ _
    rw [maxEpisodeLength]
    push_cast
    exact Iff.rfl

/-- C1 witness: a hand-built state with pitch 30° beyond the 20° threshold
and all else nominal marks row 0 done. -/
theorem C1_witness :
    step cfgEx ocfgEx ccfgEx [] (initState 1 cfgEx ocfgEx []) (fun _ _ => 0)
      physEx rEx rEx = some stepResultEx
  ∧ (stepResultEx.resetBuf 0 = true ↔
      (((initState 1 cfgEx ocfgEx []).episodeLengthBuf 0 : ℤ) + 1 >
          ⌈cfgEx.episodeLengthS / dt⌉
        ∨ |physEx.baseEuler 0 1| > cfgEx.terminationPitch
        ∨ |physEx.baseEuler 0 0| > cfgEx.terminationRoll)) :=
  ⟨rfl, C1_termination cfgEx ocfgEx ccfgEx [] (initState 1 cfgEx ocfgEx [])
    (fun _ _ => 0) physEx rEx rEx stepResultEx 0 rfl⟩

/-! ## Claim C3 -/

/-- The observation row always has the fixed width `9 + 3 A`. -/
theorem obsRow_length (ocfg : ObsCfg) (s : DodoState) (i : ℕ) :
    (obsRow ocfg s i).length = 9 + 3 * s.numActions := by
  simp [obsRow]
  ring

/-- The final reset of `step` does not touch the freshly assembled
observation buffer. -/
theorem stepFinal_obsBuf (cfg : EnvCfg) (ocfg : ObsCfg) (ccfg : CommandCfg)
    (r2 : ℕ → ℕ → ℚ) (s2 : DodoState) :
    (stepFinal cfg ocfg ccfg r2 s2).obsBuf = fun i => obsRow ocfg s2 i := by
  unfold stepFinal
  rw [reset_idx_obsBuf]
  rfl

/-- C3 amended: whenever `step` returns, the observation of row `i` is the
concatenation, in fixed order, of scaled base angular velocity (3),
projected gravity (3), scaled commands (3, after the cadence resampling),
scaled joint-position offsets (A), scaled joint velocities (A), and the
clipped current actions (A) — total width `9 + 3 A` always.  No width
check exists anywhere: construction records `num_obs` without validation
(`initState` is total) and `step` silently returns an observation of width
`9 + 3 A` even when that differs from `num_obs` — no configuration error
is raised at construction time or anywhere else. -/
theorem C3_observation_layout (cfg : EnvCfg) (ocfg : ObsCfg) (ccfg : CommandCfg)
    (terms : List RewardTerm) (s : DodoState) (acts : ℕ → ℕ → ℚ)
    (phys : PhysicsOut) (r1 r2 : ℕ → ℕ → ℚ) (s2 : DodoState) (i : ℕ)
    (h : step cfg ocfg ccfg terms s acts phys r1 r2 = some s2) :
    s2.obsBuf i =
      ((List.ofFn fun k : Fin 3 => phys.baseAngVel i k * ocfg.angVelScale) ++
       (List.ofFn fun k : Fin 3 => phys.projectedGravity i k) ++
       (List.ofFn fun k : Fin 3 =>
         resampleCommandsFun ccfg r1
           ((List.range s.numEnvs).filter fun j =>
             (s.episodeLengthBuf j + 1) % resampleCadence cfg = 0)
           s.commands i k * commandScaleVec ocfg k) ++
       (List.ofFn fun k : Fin s.numActions =>
         (phys.dofPos i k - s.defaultDofPos k) * ocfg.dofPosScale) ++
       (List.ofFn fun k : Fin s.numActions => phys.dofVel i k * ocfg.dofVelScale) ++
       (List.ofFn fun k : Fin s.numActions => clipQ cfg.clipActions (acts i k)))
  ∧ (s2.obsBuf i).length = 9 + 3 * s.numActions := by
  unfold step at h
  cases hr : rewardPassO terms
      (stepDone cfg (stepResample cfg ccfg r1 (stepAdvance cfg s acts phys))) with
  | none => rw [hr] at h; cases h
  | some sr =>
    rw [hr] at h
    simp only [Option.some.injEq] at h
    subst h
    have hobs : (stepFinal cfg ocfg ccfg r2 sr).obsBuf i = obsRow ocfg sr i :=
      congrFun (stepFinal_obsBuf cfg ocfg ccfg r2 sr) i
    have heta := evalRewardsO_eta terms _ sr hr
    have hnum : sr.numActions = s.numActions := by rw [heta]; rfl
    constructor
    · rw [hobs]
      conv_lhs => rw [heta]
      rfl
    · rw [hobs, obsRow_length, hnum]

/-- C3 witness: the observation layout evaluated on the concrete step of
`stepResultEx`. -/
theorem C3_witness :
    stepResultEx.obsBuf 0 =
      ((List.ofFn fun k : Fin 3 => physEx.baseAngVel 0 k * ocfgEx.angVelScale) ++
       (List.ofFn fun k : Fin 3 => physEx.projectedGravity 0 k) ++
       (List.ofFn fun k : Fin 3 =>
         resampleCommandsFun ccfgEx rEx
           ((List.range (initState 1 cfgEx ocfgEx []).numEnvs).filter fun j =>
             ((initState 1 cfgEx ocfgEx []).episodeLengthBuf j + 1) %
               resampleCadence cfgEx = 0)
           (initState 1 cfgEx ocfgEx []).commands 0 k * commandScaleVec ocfgEx k) ++
       (List.ofFn fun k : Fin (initState 1 cfgEx ocfgEx []).numActions =>
         (physEx.dofPos 0 k - (initState 1 cfgEx ocfgEx []).defaultDofPos k) *
           ocfgEx.dofPosScale) ++
       (List.ofFn fun k : Fin (initState 1 cfgEx ocfgEx []).numActions =>
         physEx.dofVel 0 k * ocfgEx.dofVelScale) ++
       (List.ofFn fun k : Fin (initState 1 cfgEx ocfgEx []).numActions =>
         clipQ cfgEx.clipActions ((fun _ _ => (0 : ℚ)) 0 k)))
  ∧ (stepResultEx.obsBuf 0).length =
      9 + 3 * (initState 1 cfgEx ocfgEx []).numActions :=
  C3_observation_layout cfgEx ocfgEx ccfgEx [] (initState 1 cfgEx ocfgEx [])
    (fun _ _ => 0) physEx rEx rEx stepResultEx 0 rfl

/-- C3 counterexample: with `num_obs = 5` configured against an actual
width of 15, construction succeeds (recording the inconsistent width) and
`step` returns normally with a 15-wide observation — no configuration
error is raised at construction time, contrary to the claim. -/
theorem C3_counterexample :
    (initState 1 cfgEx ocfgBad []).numObs = 5
  ∧ (initState 1 cfgEx ocfgBad []).obsBuf 0 = List.replicate 5 0
  ∧ step cfgEx ocfgBad ccfgEx [] (initState 1 cfgEx ocfgBad []) (fun _ _ => 0)
      physEx rEx rEx = some stepResultBad
  ∧ (stepResultBad.obsBuf 0).length = 15
  ∧ (15 : ℕ) ≠ 5 := by
  refine ⟨rfl, rfl, rfl, ?_, by norm_num⟩
  with_unfolding_all decide

/-! ## Claim C4 -/

/-- C4: the claim's accumulator clause fails on the code.  `__init__`
creates `episode_sums` entries only for the configured reward names
(lines 119-122) and then registers `foot_contact_penalty` and
`foot_contact_switch` (lines 126-131) without accumulators — exactly the
situation the in-code comment assumes (`reward_cfg` without those two
keys).  The reward loop's `self.episode_sums[name] += r` then raises
`KeyError` on the first `step` call: here, with only `survive`
configured, the registry is built, `penaltyTerm`'s name has no
accumulator key, and `step` returns `none` (raises) instead of returning
a reward. -/
theorem C4_missing_accumulator :
    (buildRegistry methodTableQ c4Raws).isSome = true
  ∧ c4Start.episodeSumKeys = ["survive"]
  ∧ penaltyTerm.name ∉ c4Start.episodeSumKeys
  ∧ step cfgEx ocfgEx ccfgEx c4Registry c4Start (fun _ _ => 0) physEx rEx rEx
      = none := by
  exact ⟨rfl, rfl, by decide, rfl⟩

end DodoEnv
